import Mathlib

/-!
Verification of the core trading logic of the volatility-strategy server.

The Python modules under `server/app/core` are embedded shallowly:
floats become rationals, `datetime` values become integer second
timestamps, Python dicts become association lists with Python-dict
insert/lookup/remove semantics, and the broker (KIS API) calls are
modelled by explicit outcome parameters.  Logging and WebSocket
notification calls have no model (they do not touch the state that the
properties below are about).
-/

namespace VolStrat

/-! ### Python dict operations on association lists

A Python `dict` is modelled as a `List (String × α)` with unique keys in
insertion order.  `d[k] = v` overwrites in place when the key exists and
appends otherwise; `d.pop(k)` removes the entry; `k in d` is a key test. -/

/-- `d.get(k)` / `d[k]`: first entry with the given key. -/
def dlookup {α : Type} : List (String × α) → String → Option α
  | [], _ => none
  | p :: tl, k => if p.1 = k then some p.2 else dlookup tl k

/-- `d[k] = v`: overwrite the existing entry in place, else append. -/
def dinsert {α : Type} : List (String × α) → String → α → List (String × α)
  | [], k, v => [(k, v)]
  | p :: tl, k, v => if p.1 = k then (k, v) :: tl else p :: dinsert tl k v

/-- `d.pop(k)`: drop the entry with the given key. -/
def dremove {α : Type} (l : List (String × α)) (k : String) : List (String × α) :=
  l.filter (fun p => !(p.1 = k : Bool))

/-- Python `int(x)`: truncation toward zero. -/
def pyInt (q : ℚ) : ℤ := if 0 ≤ q then ⌊q⌋ else ⌈q⌉

/-! ### Order executor (`order_executor.py`) -/

/-- `OrderStatus` enum. -/
inductive OrderStatus
  | pending
  | executing
  | completed
  | failed
  | cancelled
deriving DecidableEq, Repr

/-- `OrderType` enum ("01" market / "00" limit). -/
inductive OrderType
  | market
  | limit
deriving DecidableEq, Repr

/-- `BuyOrder.__init__`: field defaults are the constructor's defaults. -/
structure BuyOrder where
  order_id : String
  symbol : String
  stock_name : String
  target_price : ℚ
  quantity : ℤ
  order_type : OrderType := OrderType.market
  auto_execute : Bool := true
  max_price_deviation : ℚ := 2
  status : OrderStatus := OrderStatus.pending
  kis_order_id : Option String := none
  actual_price : Option ℚ := none
  error_message : Option String := none
  retry_count : ℕ := 0
  max_retries : ℕ := 3
deriving DecidableEq, Repr

/-- Which collection of the executor currently holds the order
(`pending_orders` vs `completed_orders`). -/
inductive OrderLoc
  | pending_queue
  | completed_queue
deriving DecidableEq, Repr

/-- Executor state restricted to a single tracked order, plus a ghost
counter of broker (KIS API) calls made for it. -/
structure ExecState where
  order : BuyOrder
  loc : OrderLoc
  broker_calls : ℕ
deriving DecidableEq, Repr

/-- `OrderExecutor._handle_order_error`: bump `retry_count`, record the
message; below `max_retries` the order goes back to PENDING, otherwise it
becomes FAILED and is moved to `completed_orders` (the returned flag). -/
def handle_order_error (o : BuyOrder) (error_message : String) : BuyOrder × Bool :=
  let o1 := { o with retry_count := o.retry_count + 1, error_message := some error_message }
  if o1.retry_count < o1.max_retries then ({ o1 with status := OrderStatus.pending }, false)
  else ({ o1 with status := OrderStatus.failed }, true)

/-- One pass of `OrderExecutor._process_pending_orders` over the tracked
order, in the scenario where the broker call fails on every attempt
(raises or returns `rt_cd ≠ "0"`): a PENDING auto-execute order in the
pending collection is set EXECUTING, the broker is called (counted), and
`_handle_order_error` runs; any other order is left untouched. -/
def process_step_failing (err : String) (s : ExecState) : ExecState :=
  if s.loc = OrderLoc.pending_queue ∧ s.order.status = OrderStatus.pending ∧
      s.order.auto_execute = true then
    let o1 := { s.order with status := OrderStatus.executing }
    let r := handle_order_error o1 err
    { order := r.1,
      loc := if r.2 then OrderLoc.completed_queue else OrderLoc.pending_queue,
      broker_calls := s.broker_calls + 1 }
  else s

/-- Iterate the failing processing step `n` times. -/
def run_steps (err : String) (s : ExecState) : ℕ → ExecState
  | 0 => s
  | n + 1 => process_step_failing err (run_steps err s n)

/-- A fresh order as built by `OrderExecutor.add_buy_order` (status
PENDING, `retry_count = 0`, `max_retries = 3`, auto-execute). -/
def mk_buy_order (order_id symbol stock_name : String) (target_price : ℚ)
    (quantity : ℤ) : BuyOrder :=
  { order_id := order_id, symbol := symbol, stock_name := stock_name,
    target_price := target_price, quantity := quantity }

/-- The executor state right after `add_buy_order` put the order in
`pending_orders`. -/
def init_exec_state (o : BuyOrder) : ExecState :=
  { order := o, loc := OrderLoc.pending_queue, broker_calls := 0 }

/-! ### Signal processor (`signal_processor.py`) -/

/-- `BuySignal` dataclass; defaults as in the source. -/
structure BuySignal where
  signal_id : String
  symbol : String
  stock_name : String
  trigger_price : ℚ
  current_price : ℚ
  change_percent : ℚ
  volume : ℤ
  trigger_reason : String
  created_at : ℤ
  investment_amount : ℚ := 1000000
  auto_confirm : Bool := false
  confirmation_timeout : ℤ := 30
  is_confirmed : Bool := false
  is_processed : Bool := false
  order_id : Option String := none
  confirmed_at : Option ℤ := none
deriving DecidableEq, Repr

/-- `SignalProcessor` mutable state and configuration. -/
structure SPState where
  active_signals : List (String × BuySignal)
  processed_signals : List (String × BuySignal)
  auto_execution_enabled : Bool
  max_pending_signals : ℕ
  signal_timeout : ℤ
  default_investment_amount : ℚ
deriving DecidableEq, Repr

/-- `SignalProcessor.__init__`. -/
def SPState.init : SPState :=
  { active_signals := [], processed_signals := [], auto_execution_enabled := true,
    max_pending_signals := 10, signal_timeout := 300,
    default_investment_amount := 1000000 }

/-- `SignalProcessor._should_generate_signal`. -/
def should_generate_signal (s : SPState) (symbol : String) (change_percent : ℚ)
    (volume : ℤ) (threshold_percent : ℚ) : Bool :=
  if change_percent < threshold_percent then false
  else if s.active_signals.any (fun p => p.2.symbol = symbol) then false
  else if s.max_pending_signals ≤ s.active_signals.length then false
  else if volume < 100000 then false
  else true

/-- `OrderExecutor.add_buy_order` quantity computation:
`int(investment_amount / target_price)`.  The call raises (ValueError, or
ZeroDivisionError when the price is 0 — in `ℚ` division by zero yields 0)
exactly when this is not positive. -/
def add_buy_order_quantity (investment_amount target_price : ℚ) : ℤ :=
  pyInt (investment_amount / target_price)

/-- `SignalProcessor._execute_buy_order`: on a successful
`add_buy_order` the signal gets an order id, is marked processed and
moves from `active_signals` to `processed_signals`; when `add_buy_order`
raises, the exception is caught and the signal merely gets an
ORDER_FAILED trigger reason — it stays in `active_signals`. -/
def execute_buy_order (s : SPState) (sig : BuySignal) : SPState :=
  let quantity := add_buy_order_quantity sig.investment_amount sig.current_price
  if 0 < quantity then
    let sig1 := { sig with order_id := some ("BUY_" ++ sig.symbol), is_processed := true }
    { s with active_signals := dremove s.active_signals sig.signal_id,
             processed_signals := dinsert s.processed_signals sig.signal_id sig1 }
  else
    let sig1 := { sig with trigger_reason := "ORDER_FAILED: Invalid order quantity" }
    { s with active_signals := dinsert s.active_signals sig.signal_id sig1 }

/-- The investment amount a signal ends up with in `confirm_signal`:
the override is applied only when an amount is passed and is truthy
(Python `if investment_amount:` — a zero override is ignored). -/
def amount_override (sig : BuySignal) (amt : Option ℚ) : ℚ :=
  match amt with
  | some a => if a = 0 then sig.investment_amount else a
  | none => sig.investment_amount

/-- `SignalProcessor.confirm_signal`.  Note the Python truthiness test
`if investment_amount:` — a zero override amount is ignored. -/
def confirm_signal (s : SPState) (now : ℤ) (signal_id : String)
    (investment_amount : Option ℚ) : Bool × SPState :=
  match dlookup s.active_signals signal_id with
  | none => (false, s)
  | some sig =>
    if sig.is_confirmed then (false, s)
    else
      let sig1 := match investment_amount with
        | some a => if a = 0 then sig else { sig with investment_amount := a }
        | none => sig
      let sig2 := { sig1 with is_confirmed := true, confirmed_at := some now }
      let s1 := { s with active_signals := dinsert s.active_signals signal_id sig2 }
      (true, execute_buy_order s1 sig2)

/-- The `BuySignal` literal built by `SignalProcessor._create_buy_signal`. -/
def created_signal (s : SPState) (now : ℤ) (new_id : String)
    (symbol stock_name : String) (current_price change_percent : ℚ)
    (volume : ℤ) : BuySignal :=
  { signal_id := new_id, symbol := symbol, stock_name := stock_name,
    trigger_price := current_price, current_price := current_price,
    change_percent := change_percent, volume := volume,
    trigger_reason := "momentum buy", created_at := now,
    investment_amount := s.default_investment_amount,
    auto_confirm := s.auto_execution_enabled }

/-- `SignalProcessor.process_price_update` (together with
`_create_buy_signal`): check `_should_generate_signal`, build the signal,
put it in `active_signals`, and when `auto_confirm` is set run
`confirm_signal` on it; the returned signal is the (possibly updated)
stored object.  `new_id` stands for the generated `SIG_...` id. -/
def process_price_update (s : SPState) (now : ℤ) (new_id : String)
    (symbol stock_name : String) (current_price change_percent : ℚ)
    (volume : ℤ) (threshold_percent : ℚ) : Option BuySignal × SPState :=
  if should_generate_signal s symbol change_percent volume threshold_percent then
    let sig : BuySignal :=
      created_signal s now new_id symbol stock_name current_price change_percent volume
    let s1 := { s with active_signals := dinsert s.active_signals new_id sig }
    let s2 := if sig.auto_confirm then (confirm_signal s1 now new_id none).2 else s1
    ((dlookup s2.active_signals new_id).orElse
      (fun _ => dlookup s2.processed_signals new_id), s2)
  else (none, s)

/-- `timedelta.seconds` of an integral-second difference: the seconds
field of the normalized timedelta, i.e. the difference modulo 86400
(Python `%`, matching `Int.emod`). -/
def timedelta_seconds (d : ℤ) : ℤ := d % 86400

/-- `SignalProcessor.cleanup_expired_signals`: every active signal with
`(now - created_at).seconds > confirmation_timeout` is popped from
`active_signals` and written to `processed_signals`. -/
def cleanup_expired_signals (s : SPState) (now : ℤ) : SPState :=
  let isExpired : String × BuySignal → Bool := fun p =>
    decide (p.2.confirmation_timeout < timedelta_seconds (now - p.2.created_at))
  { s with
    active_signals := s.active_signals.filter (fun p => !(isExpired p)),
    processed_signals :=
      (s.active_signals.filter isExpired).foldl
        (fun acc p => dinsert acc p.1 p.2) s.processed_signals }

/-! ### Position manager (`position_manager.py`) -/

/-- `PositionStatus` enum. -/
inductive PositionStatus
  | active
  | monitoring
  | exit_pending
  | closed
  | liquidated
deriving DecidableEq, Repr

/-- `ExitReason` enum. -/
inductive ExitReason
  | profit_target
  | stop_loss
  | time_based
  | manual
  | force_liquidation
deriving DecidableEq, Repr

/-- `Position` dataclass.  The bounded `price_updates` history list is a
pure log and is not modelled. -/
structure Position where
  position_id : String
  symbol : String
  stock_name : String
  entry_price : ℚ
  quantity : ℤ
  entry_time : ℤ
  target_profit_percent : ℚ := 3
  stop_loss_percent : ℚ := -2
  max_hold_hours : ℤ := 6
  status : PositionStatus := PositionStatus.active
  current_price : ℚ := 0
  current_pnl : ℚ := 0
  current_pnl_percent : ℚ := 0
  exit_price : Option ℚ := none
  exit_time : Option ℤ := none
  exit_reason : Option ExitReason := none
  exit_order_id : Option String := none
  highest_price : ℚ := 0
  lowest_price : ℚ := 0
deriving DecidableEq, Repr

/-- A position as built by `PositionManager.add_position`: the dataclass
is constructed with the tracking fields at their defaults
(`current_price = 0`, `highest_price = 0.0`, `lowest_price = inf`) and
`__post_init__` then rewrites each of them to `entry_price`. -/
def mk_position (position_id symbol stock_name : String) (entry_price : ℚ)
    (quantity : ℤ) (entry_time : ℤ) (target_profit_percent stop_loss_percent : ℚ)
    (max_hold_hours : ℤ) : Position :=
  { position_id := position_id, symbol := symbol, stock_name := stock_name,
    entry_price := entry_price, quantity := quantity, entry_time := entry_time,
    target_profit_percent := target_profit_percent,
    stop_loss_percent := stop_loss_percent, max_hold_hours := max_hold_hours,
    current_price := entry_price, highest_price := entry_price,
    lowest_price := entry_price }

/-- `Position.update_price`. -/
def Position.update_price (p : Position) (new_price : ℚ) : Position :=
  { p with current_price := new_price,
           highest_price := max p.highest_price new_price,
           lowest_price := min p.lowest_price new_price,
           current_pnl := (new_price - p.entry_price) * (p.quantity : ℚ),
           current_pnl_percent := (new_price - p.entry_price) / p.entry_price * 100 }

/-- `update_price` applied to a whole sequence of price ticks. -/
def Position.apply_updates (p : Position) (prices : List ℚ) : Position :=
  prices.foldl Position.update_price p

/-- Hours held: `(now - entry_time).total_seconds() / 3600`. -/
def hours_held (p : Position) (now : ℤ) : ℚ := ((now - p.entry_time : ℤ) : ℚ) / 3600

/-- `Position.should_exit`. -/
def Position.should_exit (p : Position) (now : ℤ) : Bool × Option ExitReason :=
  if p.target_profit_percent ≤ p.current_pnl_percent then
    (true, some ExitReason.profit_target)
  else if p.current_pnl_percent ≤ p.stop_loss_percent then
    (true, some ExitReason.stop_loss)
  else if (p.max_hold_hours : ℚ) ≤ hours_held p now then
    (true, some ExitReason.time_based)
  else (false, none)

/-- `PositionManager` state (`active_positions` / `closed_positions`). -/
structure PMState where
  active_positions : List (String × Position)
  closed_positions : List (String × Position)
deriving DecidableEq, Repr

/-- `PositionManager.close_position`.  `sell_ok` is the outcome of the
KIS sell order (`rt_cd == "0"`); an exception from the client behaves
like a failure (both paths return `False` without touching the maps).
The last component reports whether a sell order was attempted. -/
def close_position (s : PMState) (position_id : String) (exit_reason : ExitReason)
    (exit_price : Option ℚ) (sell_ok : Bool) (now : ℤ) : Bool × PMState × Bool :=
  match dlookup s.active_positions position_id with
  | none => (false, s, false)
  | some pos =>
    let ep := exit_price.getD pos.current_price
    if sell_ok then
      let pos1 := { pos with exit_price := some ep, exit_time := some now,
                             exit_reason := some exit_reason,
                             status := PositionStatus.closed }
      let pos2 := pos1.update_price ep
      (true,
       { active_positions := dremove s.active_positions position_id,
         closed_positions := dinsert s.closed_positions position_id pos2 },
       true)
    else (false, s, true)

/-! ### Session manager (`session_manager.py`) -/

/-- `SessionPhase` enum. -/
inductive SessionPhase
  | waiting
  | phase_1
  | phase_2
  | phase_3
  | phase_4
  | completed
deriving DecidableEq, Repr

/-- `MonitoringTarget` dataclass. -/
structure MonitoringTarget where
  symbol : String
  stock_name : String
  entry_price : ℚ
  current_price : ℚ
  change_percent : ℚ
  volume : ℤ
  buy_threshold : ℚ
  is_triggered : Bool := false
  trigger_time : Option ℤ := none
deriving DecidableEq, Repr

/-- The `adjustment_factors` dict of `_adjust_thresholds_for_phase`
(`dict.get(phase, 1.0)` defaults to 1). -/
def adjustment_factor : SessionPhase → ℚ
  | SessionPhase.phase_1 => 1
  | SessionPhase.phase_2 => 9/10
  | SessionPhase.phase_3 => 4/5
  | SessionPhase.phase_4 => 7/10
  | _ => 1

/-- `AfterHoursSessionManager._adjust_thresholds_for_phase`: every
untriggered target's `buy_threshold` is multiplied in place by the
phase factor; triggered targets are untouched. -/
def adjust_thresholds_for_phase (targets : List (String × MonitoringTarget))
    (phase : SessionPhase) : List (String × MonitoringTarget) :=
  targets.map (fun p =>
    if p.2.is_triggered then p
    else (p.1, { p.2 with buy_threshold := p.2.buy_threshold * adjustment_factor phase }))

/-- Session-manager state relevant to phase handling. -/
structure SMState where
  current_phase : SessionPhase
  monitoring_targets : List (String × MonitoringTarget)
deriving DecidableEq, Repr

/-- `AfterHoursSessionManager._handle_phase_change`: record the new
phase; for PHASE_2/3/4 run the threshold adjustment (PHASE_1's factor is
1.0, so not running it there changes nothing). -/
def handle_phase_change (s : SMState) (new_phase : SessionPhase) : SMState :=
  let s1 : SMState := { s with current_phase := new_phase }
  if new_phase = SessionPhase.phase_2 ∨ new_phase = SessionPhase.phase_3 ∨
      new_phase = SessionPhase.phase_4 then
    { s1 with monitoring_targets :=
        adjust_thresholds_for_phase s1.monitoring_targets new_phase }
  else s1

/-! ### Threshold adjuster (`threshold_adjuster.py`) -/

/-- `AdjustmentStrategy` enum. -/
inductive AdjustmentStrategy
  | conservative
  | balanced
  | aggressive
  | time_based
deriving DecidableEq, Repr

/-- `MarketCondition` dataclass. -/
structure MarketCondition where
  total_rise_count : ℤ
  total_stock_count : ℤ
  average_change : ℚ
  volatility_index : ℚ
  volume_ratio : ℚ
deriving DecidableEq, Repr

/-- `AdjustmentRecommendation` dataclass; the `adjustment_reason` log
string is not modelled. -/
structure AdjustmentRecommendation where
  current_threshold : ℚ
  recommended_threshold : ℚ
  confidence_score : ℚ
  strategy : AdjustmentStrategy
deriving DecidableEq, Repr

/-- `rise_count / total_stock_count if total_stock_count > 0 else 0`,
as computed in each adjustment helper. -/
def rise_fraction (mc : MarketCondition) : ℚ :=
  if 0 < mc.total_stock_count then (mc.total_rise_count : ℚ) / (mc.total_stock_count : ℚ)
  else 0

/-- `ThresholdAdjuster._apply_time_based_adjustment`: walk the
`time_adjustment_factors` keys in decreasing order and take the factor of
the first key not above `hour + minute / 60` (default 1.0). -/
def apply_time_based_adjustment (threshold : ℚ) (hour minute : ℕ) : ℚ :=
  let hour_minute : ℚ := (hour : ℚ) + (minute : ℚ) / 60
  let factor : ℚ :=
    if 35/2 ≤ hour_minute then 7/10
    else if 17 ≤ hour_minute then 4/5
    else if 33/2 ≤ hour_minute then 9/10
    else if 16 ≤ hour_minute then 1
    else 1
  threshold * factor

/-- `ThresholdAdjuster._apply_conservative_adjustment`. -/
def apply_conservative_adjustment (threshold : ℚ) (mc : MarketCondition) : ℚ :=
  let a1 : ℚ := 6/5
  let a2 := if 2 < mc.volatility_index then a1 + 1/10 else a1
  let a3 := if rise_fraction mc < 3/10 then a2 + 1/10 else a2
  threshold * a3

/-- `ThresholdAdjuster._apply_aggressive_adjustment`. -/
def apply_aggressive_adjustment (threshold : ℚ) (mc : MarketCondition) : ℚ :=
  let a1 : ℚ := 4/5
  let a2 := if 7/10 < rise_fraction mc then a1 - 1/10 else a1
  let a3 := if 2 < mc.average_change then a2 - 1/10 else a2
  threshold * max (1/2) a3

/-- `ThresholdAdjuster._apply_balanced_adjustment`. -/
def apply_balanced_adjustment (threshold : ℚ) (mc : MarketCondition)
    (hour minute : ℕ) : ℚ :=
  let time_adjusted := apply_time_based_adjustment threshold hour minute
  let market_factor : ℚ :=
    if 3/5 < rise_fraction mc then 9/10
    else if rise_fraction mc < 2/5 then 11/10
    else 1
  time_adjusted * market_factor

/-- `ThresholdAdjuster._calculate_confidence_score`. -/
def calculate_confidence_score (mc : MarketCondition)
    (strategy : AdjustmentStrategy) : ℚ :=
  let b1 : ℚ := 7/10
  let b2 := if 100 < mc.total_stock_count then b1 + 1/10
    else if mc.total_stock_count < 50 then b1 - 1/10 else b1
  let b3 := if 3 < mc.volatility_index then b2 - 1/10
    else if mc.volatility_index < 1 then b2 + 1/10 else b2
  let b4 := if strategy = AdjustmentStrategy.time_based then b3 + 1/10
    else if strategy = AdjustmentStrategy.balanced then b3 + 1/20 else b3
  max 0 (min 1 b4)

/-- Python `round(x, 2)`.  Ties (where `x * 100` is an exact half) go to
even in Python; this model rounds them up instead, which is immaterial to
the range property proved about it. -/
def round2 (q : ℚ) : ℚ := ((⌊q * 100 + 1/2⌋ : ℤ) : ℚ) / 100

/-- `ThresholdAdjuster.calculate_adjustment`: strategy dispatch, clamp to
`[min_threshold, max_threshold] = [0.5, 5.0]`, round to 2 decimals. -/
def calculate_adjustment (current_threshold : ℚ) (mc : MarketCondition)
    (hour minute : ℕ) (strategy : AdjustmentStrategy) : AdjustmentRecommendation :=
  let new_threshold :=
    match strategy with
    | AdjustmentStrategy.time_based =>
        apply_time_based_adjustment current_threshold hour minute
    | AdjustmentStrategy.conservative =>
        apply_conservative_adjustment current_threshold mc
    | AdjustmentStrategy.aggressive =>
        apply_aggressive_adjustment current_threshold mc
    | AdjustmentStrategy.balanced =>
        apply_balanced_adjustment current_threshold mc hour minute
  let clamped := max (1/2) (min 5 new_threshold)
  { current_threshold := current_threshold,
    recommended_threshold := round2 clamped,
    confidence_score := calculate_confidence_score mc strategy,
    strategy := strategy }

/-! ### Stock scorer (`stock_filter.py`) -/

/-- `StockScorer.calculate_momentum_score` (the float literals 6.67 and
7.5 become `667/100` and `15/2`). -/
def calculate_momentum_score (change_percent : ℚ) : ℚ :=
  if 10 ≤ change_percent then 100
  else if 5 ≤ change_percent then 80 + (change_percent - 5) * 4
  else if 2 ≤ change_percent then 60 + (change_percent - 2) * (667/100)
  else if 0 ≤ change_percent then 30 + change_percent * 15
  else if -2 ≤ change_percent then 15 + (change_percent + 2) * (15/2)
  else max 0 (15 + (change_percent + 2) * (15/2))

/-- `StockScorer.calculate_strength_score` (87.5 becomes `175/2`). -/
def calculate_strength_score (current_price day_high day_low : ℚ) : ℚ :=
  if day_high ≤ day_low then 50
  else
    let position := (current_price - day_low) / (day_high - day_low)
    if 9/10 ≤ position then 100
    else if 4/5 ≤ position then 85 + (position - 4/5) * 150
    else if 3/5 ≤ position then 60 + (position - 3/5) * 125
    else if 2/5 ≤ position then 35 + (position - 2/5) * 125
    else position * (175/2)

/-! ### Association-list lemmas -/

theorem dlookup_dinsert_self {α : Type} (l : List (String × α)) (k : String) (v : α) :
    dlookup (dinsert l k v) k = some v := by
  induction l with
  | nil => simp [dinsert, dlookup]
  | cons p tl ih =>
      by_cases h : p.1 = k
      · simp [dinsert, h, dlookup]
      · simp [dinsert, h, dlookup, ih]

theorem dlookup_dremove_self {α : Type} (l : List (String × α)) (k : String) :
    dlookup (dremove l k) k = none := by
  induction l with
  | nil => simp [dremove, dlookup]
  | cons p tl ih =>
      by_cases h : p.1 = k
      · simpa [dremove, List.filter_cons, h] using ih
      · simpa [dremove, List.filter_cons, h, dlookup] using ih

/-! ### C3: exit-reason priority -/

/-- C3: `Position.should_exit` reports at most one reason, by fixed
priority profit target, then stop loss, then time based; in particular
when both the profit and the stop-loss condition hold, only
PROFIT_TARGET is reported. -/
theorem should_exit_priority (p : Position) (now : ℤ) :
    (p.target_profit_percent ≤ p.current_pnl_percent →
        p.should_exit now = (true, some ExitReason.profit_target)) ∧
    (p.current_pnl_percent < p.target_profit_percent →
      p.current_pnl_percent ≤ p.stop_loss_percent →
        p.should_exit now = (true, some ExitReason.stop_loss)) ∧
    (p.current_pnl_percent < p.target_profit_percent →
      p.stop_loss_percent < p.current_pnl_percent →
      (p.max_hold_hours : ℚ) ≤ hours_held p now →
        p.should_exit now = (true, some ExitReason.time_based)) ∧
    (p.current_pnl_percent < p.target_profit_percent →
      p.stop_loss_percent < p.current_pnl_percent →
      hours_held p now < (p.max_hold_hours : ℚ) →
        p.should_exit now = (false, none)) ∧
    (p.target_profit_percent ≤ p.current_pnl_percent →
      p.current_pnl_percent ≤ p.stop_loss_percent →
        p.should_exit now = (true, some ExitReason.profit_target)) := by
  refine ⟨fun h1 => ?_, fun h1 h2 => ?_, fun h1 h2 h3 => ?_, fun h1 h2 h3 => ?_,
    fun h1 h2 => ?_⟩ <;>
    unfold Position.should_exit <;>
    split_ifs <;> first | rfl | (exfalso; linarith)

/-- A position whose pnl meets both the profit target and the stop-loss
threshold at once. -/
def sample_position_both : Position :=
  { position_id := "POS_A", symbol := "AAA", stock_name := "AlphaCo",
    entry_price := 100, quantity := 10, entry_time := 0,
    target_profit_percent := 3, stop_loss_percent := 3,
    current_pnl_percent := 3 }

/-- A position in stop-loss territory only. -/
def sample_position_stop : Position :=
  { position_id := "POS_B", symbol := "BBB", stock_name := "BetaCo",
    entry_price := 100, quantity := 10, entry_time := 0,
    current_pnl_percent := -5 }

theorem should_exit_priority_witness :
    Position.should_exit sample_position_both 0 = (true, some ExitReason.profit_target) ∧
    Position.should_exit sample_position_stop 0 = (true, some ExitReason.stop_loss) :=
  ⟨(should_exit_priority sample_position_both 0).2.2.2.2 (by norm_num [sample_position_both])
      (by norm_num [sample_position_both]),
   (should_exit_priority sample_position_stop 0).2.1 (by norm_num [sample_position_stop])
      (by norm_num [sample_position_stop])⟩

/-! ### C6: phase-change threshold decay -/

/-- C6: on a phase transition, every untriggered target's threshold is
multiplied in place (hence compounding) by the phase factor — 1.0, 0.9,
0.8, 0.7 for phases 1-4 — while triggered targets keep theirs. -/
theorem phase_change_threshold_decay (s : SMState) (phase : SessionPhase) :
    (handle_phase_change s phase).current_phase = phase ∧
    (handle_phase_change s phase).monitoring_targets =
      s.monitoring_targets.map (fun p =>
        if p.2.is_triggered then p
        else (p.1, { p.2 with buy_threshold := p.2.buy_threshold * adjustment_factor phase })) ∧
    adjustment_factor SessionPhase.phase_1 = 1 ∧
    adjustment_factor SessionPhase.phase_2 = 9/10 ∧
    adjustment_factor SessionPhase.phase_3 = 4/5 ∧
    adjustment_factor SessionPhase.phase_4 = 7/10 := by
  refine ⟨?_, ?_, rfl, rfl, rfl, rfl⟩
  · unfold handle_phase_change
    split_ifs <;> rfl
  · unfold handle_phase_change
    split_ifs with h
    · rfl
    · have hfac : adjustment_factor phase = 1 := by
        cases phase <;> simp_all [adjustment_factor]
      rw [hfac]
      have hid : (fun p : String × MonitoringTarget =>
          if p.2.is_triggered then p
          else (p.1, { p.2 with buy_threshold := p.2.buy_threshold * 1 })) =
          fun p => p := by
        funext p
        split
        · rfl
        · rw [mul_one]
      rw [hid, List.map_id']

/-! ### C7: threshold recommendation always in range -/

/-- C7: for every threshold, market condition, time of day and strategy,
the recommended threshold of `calculate_adjustment` lies in [0.5, 5.0]. -/
theorem calculate_adjustment_bounded (current_threshold : ℚ) (mc : MarketCondition)
    (hour minute : ℕ) (strategy : AdjustmentStrategy) :
    1/2 ≤ (calculate_adjustment current_threshold mc hour minute strategy).recommended_threshold ∧
    (calculate_adjustment current_threshold mc hour minute strategy).recommended_threshold ≤ 5 := by
  have key : ∀ q : ℚ, 1/2 ≤ q → q ≤ 5 → 1/2 ≤ round2 q ∧ round2 q ≤ 5 := by
    intro q hq1 hq2
    unfold round2
    have h50 : (50 : ℤ) ≤ ⌊q * 100 + 1/2⌋ := by
      apply Int.le_floor.mpr
      push_cast
      linarith
    have h50q : (50 : ℚ) ≤ (⌊q * 100 + 1/2⌋ : ℚ) := by exact_mod_cast h50
    have hfl : (⌊q * 100 + 1/2⌋ : ℚ) ≤ q * 100 + 1/2 := Int.floor_le _
    have h500 : ⌊q * 100 + 1/2⌋ ≤ 500 := by
      by_contra hc
      push_neg at hc
      have : (501 : ℚ) ≤ (⌊q * 100 + 1/2⌋ : ℚ) := by exact_mod_cast hc
      linarith
    have h500q : (⌊q * 100 + 1/2⌋ : ℚ) ≤ 500 := by exact_mod_cast h500
    constructor <;> [linarith; linarith]
  cases strategy <;>
    exact key _ (le_max_left _ _) (max_le (by norm_num) (min_le_left _ _))

/-! ### C10: position price bounds invariant -/

theorem apply_updates_spec : ∀ (prices : List ℚ) (p : Position),
    p.lowest_price ≤ p.current_price → p.current_price ≤ p.highest_price →
    (p.apply_updates prices).lowest_price = prices.foldl min p.lowest_price ∧
    (p.apply_updates prices).highest_price = prices.foldl max p.highest_price ∧
    (p.apply_updates prices).lowest_price ≤ (p.apply_updates prices).current_price ∧
    (p.apply_updates prices).current_price ≤ (p.apply_updates prices).highest_price
  | [], _, h1, h2 => ⟨rfl, rfl, h1, h2⟩
  | a :: tl, p, _, _ =>
      apply_updates_spec tl (p.update_price a) (min_le_right _ _) (le_max_right _ _)

/-- C10: a manager-constructed position keeps
`lowest_price ≤ current_price ≤ highest_price` through every sequence of
`update_price` calls, with `lowest_price`/`highest_price` the running
minimum/maximum of the entry price and all prices applied. -/
theorem position_price_bounds_invariant (position_id symbol stock_name : String)
    (entry_price : ℚ) (quantity : ℤ) (entry_time : ℤ)
    (target_profit_percent stop_loss_percent : ℚ) (max_hold_hours : ℤ)
    (prices : List ℚ) :
    ((mk_position position_id symbol stock_name entry_price quantity entry_time
        target_profit_percent stop_loss_percent max_hold_hours).apply_updates
        prices).lowest_price = prices.foldl min entry_price ∧
    ((mk_position position_id symbol stock_name entry_price quantity entry_time
        target_profit_percent stop_loss_percent max_hold_hours).apply_updates
        prices).highest_price = prices.foldl max entry_price ∧
    ((mk_position position_id symbol stock_name entry_price quantity entry_time
        target_profit_percent stop_loss_percent max_hold_hours).apply_updates
        prices).lowest_price ≤
      ((mk_position position_id symbol stock_name entry_price quantity entry_time
        target_profit_percent stop_loss_percent max_hold_hours).apply_updates
        prices).current_price ∧
    ((mk_position position_id symbol stock_name entry_price quantity entry_time
        target_profit_percent stop_loss_percent max_hold_hours).apply_updates
        prices).current_price ≤
      ((mk_position position_id symbol stock_name entry_price quantity entry_time
        target_profit_percent stop_loss_percent max_hold_hours).apply_updates
        prices).highest_price :=
  apply_updates_spec prices _ le_rfl le_rfl

/-! ### C1: order executor retry behavior under a permanently failing broker -/

theorem process_step_attempt (err : String) (s : ExecState)
    (h1 : s.loc = OrderLoc.pending_queue) (h2 : s.order.status = OrderStatus.pending)
    (h3 : s.order.auto_execute = true) :
    process_step_failing err s =
      { order := { s.order with
          status := if s.order.retry_count + 1 < s.order.max_retries then
              OrderStatus.pending else OrderStatus.failed,
          retry_count := s.order.retry_count + 1,
          error_message := some err },
        loc := if s.order.retry_count + 1 < s.order.max_retries then
            OrderLoc.pending_queue else OrderLoc.completed_queue,
        broker_calls := s.broker_calls + 1 } := by
  unfold process_step_failing handle_order_error
  rw [if_pos ⟨h1, h2, h3⟩]
  by_cases hrc : s.order.retry_count + 1 < s.order.max_retries
  · simp [hrc]
  · simp [hrc]

theorem process_step_failed_stuck (err : String) (s : ExecState)
    (h : s.order.status = OrderStatus.failed) :
    process_step_failing err s = s := by
  unfold process_step_failing
  rw [if_neg]
  rintro ⟨_, h2, _⟩
  rw [h] at h2
  exact OrderStatus.noConfusion h2

/-- C1: starting from a fresh auto-execute buy order, when every broker
call fails, each processing pass while `retry_count < 3` leaves the order
PENDING with `retry_count` bumped; the pass that brings `retry_count` to
`max_retries = 3` makes it FAILED and moves it to the completed
collection, and no later pass ever calls the broker again — exactly
`min n 3` broker calls after `n` passes. -/
theorem order_executor_fail_retry (order_id symbol stock_name : String)
    (target_price : ℚ) (quantity : ℤ) (err : String) (n : ℕ) :
    (run_steps err (init_exec_state
        (mk_buy_order order_id symbol stock_name target_price quantity)) n).broker_calls =
      min n 3 ∧
    (run_steps err (init_exec_state
        (mk_buy_order order_id symbol stock_name target_price quantity)) n).order.retry_count =
      min n 3 ∧
    (run_steps err (init_exec_state
        (mk_buy_order order_id symbol stock_name target_price quantity)) n).order.max_retries = 3 ∧
    (run_steps err (init_exec_state
        (mk_buy_order order_id symbol stock_name target_price quantity)) n).order.status =
      (if n < 3 then OrderStatus.pending else OrderStatus.failed) ∧
    (run_steps err (init_exec_state
        (mk_buy_order order_id symbol stock_name target_price quantity)) n).loc =
      (if n < 3 then OrderLoc.pending_queue else OrderLoc.completed_queue) ∧
    (run_steps err (init_exec_state
        (mk_buy_order order_id symbol stock_name target_price quantity)) n).order.auto_execute =
      true := by
  induction n with
  | zero => exact ⟨rfl, rfl, rfl, rfl, rfl, rfl⟩
  | succ n ih =>
      obtain ⟨hb, hr, hm, hs, hl, ha⟩ := ih
      by_cases hn : n < 3
      · have hmin : min n 3 = n := by omega
        have hstep := process_step_attempt err _
          (by rw [hl, if_pos hn]) (by rw [hs, if_pos hn]) ha
        simp only [run_steps, hstep]
        refine ⟨?_, ?_, hm, ?_, ?_, ha⟩
        · dsimp only
          rw [hb]
          omega
        · dsimp only
          rw [hr]
          omega
        · dsimp only
          rw [hr, hm, hmin]
        · dsimp only
          rw [hr, hm, hmin]
      · have hstep := process_step_failed_stuck err _
          (by rw [hs, if_neg hn])
        simp only [run_steps, hstep]
        have hn1 : ¬(n + 1 < 3) := by omega
        refine ⟨?_, ?_, hm, ?_, ?_, ha⟩
        · rw [hb]; omega
        · rw [hr]; omega
        · rw [hs, if_neg hn, if_neg hn1]
        · rw [hl, if_neg hn, if_neg hn1]

/-! ### C5: closing a missing / already-closed position is a no-op -/

/-- C5: `close_position` on an id absent from the active map returns
False, attempts no sell order and changes nothing; consequently after a
successful close, a second close of the same id is such a no-op. -/
theorem close_position_idempotent (s : PMState) (position_id : String)
    (exit_reason : ExitReason) (exit_price : Option ℚ) (sell_ok : Bool) (now : ℤ) :
    (dlookup s.active_positions position_id = none →
      close_position s position_id exit_reason exit_price sell_ok now = (false, s, false)) ∧
    (∀ pos, dlookup s.active_positions position_id = some pos →
      (close_position s position_id exit_reason exit_price true now).1 = true ∧
      ∀ (reason2 : ExitReason) (price2 : Option ℚ) (ok2 : Bool) (now2 : ℤ),
        close_position (close_position s position_id exit_reason exit_price true now).2.1
            position_id reason2 price2 ok2 now2 =
          (false, (close_position s position_id exit_reason exit_price true now).2.1, false)) := by
  constructor
  · intro h
    simp [close_position, h]
  · intro pos h
    constructor
    · simp [close_position, h]
    · intro reason2 price2 ok2 now2
      set s2 := (close_position s position_id exit_reason exit_price true now).2.1
        with hs2def
      have hact : s2.active_positions = dremove s.active_positions position_id := by
        rw [hs2def]
        simp [close_position, h]
      have hnone : dlookup s2.active_positions position_id = none := by
        rw [hact]
        exact dlookup_dremove_self _ _
      simp [close_position, hnone]

/-- A one-position manager state for concrete evaluation. -/
def sample_pm_state : PMState :=
  { active_positions := [("POS_B", sample_position_stop)], closed_positions := [] }

theorem close_position_idempotent_witness :
    (close_position sample_pm_state "POS_B" ExitReason.manual none true 0).1 = true ∧
    close_position (close_position sample_pm_state "POS_B" ExitReason.manual none true 0).2.1
        "POS_B" ExitReason.manual none true 0 =
      (false, (close_position sample_pm_state "POS_B" ExitReason.manual none true 0).2.1, false) := by
  have h := (close_position_idempotent sample_pm_state "POS_B" ExitReason.manual none true 0).2
    sample_position_stop rfl
  exact ⟨h.1, h.2 ExitReason.manual none true 0⟩

/-! ### C8: score monotonicity (corrected) -/

/-- C8 counterexample: the momentum score is NOT monotone across the
`change_percent = 5` branch boundary: the `[2, 5)` branch reaches
`60 + 3 * 6.67 = 80.01` just below 5, above the value 80 taken at 5. -/
theorem momentum_score_not_monotone :
    (4999/1000 : ℚ) ≤ 5 ∧
    calculate_momentum_score 5 < calculate_momentum_score (4999/1000) := by
  constructor
  · norm_num
  · norm_num [calculate_momentum_score]

set_option maxHeartbeats 1000000 in
/-- C8 (amended): the strength score is monotone non-decreasing in the
intraday position (equivalently, in `current_price` for fixed
`day_low < day_high`), and the momentum score is monotone non-decreasing
on each side of `change_percent = 5` — but not across that boundary
(see the counterexample). -/
theorem scorer_monotone_amended :
    (∀ (day_low day_high c1 c2 : ℚ), day_low < day_high → c1 ≤ c2 →
      calculate_strength_score c1 day_high day_low ≤
        calculate_strength_score c2 day_high day_low) ∧
    (∀ x y : ℚ, x ≤ y → (y < 5 ∨ 5 ≤ x) →
      calculate_momentum_score x ≤ calculate_momentum_score y) := by
  constructor
  · intro day_low day_high c1 c2 hlh hc
    have hd : (0 : ℚ) < day_high - day_low := by linarith
    have hp : (c1 - day_low) / (day_high - day_low) ≤
        (c2 - day_low) / (day_high - day_low) :=
      (div_le_div_iff_of_pos_right hd).mpr (by linarith)
    unfold calculate_strength_score
    rw [if_neg (not_le.mpr hlh), if_neg (not_le.mpr hlh)]
    dsimp only
    split_ifs <;> linarith
  · intro x y hxy hside
    unfold calculate_momentum_score
    rcases hside with hs5 | hs5 <;> split_ifs <;>
      first
        | linarith
        | (apply max_le <;> linarith)
        | exact max_le_max le_rfl (by linarith)

theorem scorer_monotone_amended_witness :
    calculate_strength_score 105 110 100 ≤ calculate_strength_score 108 110 100 ∧
    calculate_momentum_score 1 ≤ calculate_momentum_score 3 :=
  ⟨scorer_monotone_amended.1 100 110 105 108 (by norm_num) (by norm_num),
   scorer_monotone_amended.2 1 3 (by norm_num) (Or.inl (by norm_num))⟩

/-! ### C9: expiry sweep wraps at one day (code bug) -/

/-- An active signal created at t = 0 with the default 30 s timeout. -/
def sample_expired_signal : BuySignal :=
  { signal_id := "SIG_A", symbol := "AAA", stock_name := "AlphaCo",
    trigger_price := 100, current_price := 100, change_percent := 3,
    volume := 200000, trigger_reason := "momentum buy", created_at := 0 }

/-- Processor state holding only that signal. -/
def sample_sp_state : SPState :=
  { SPState.init with active_signals := [("SIG_A", sample_expired_signal)] }

/-- C9 (code bug): a signal whose true age is 86405 s — one day plus 5 s,
far beyond its 30 s `confirmation_timeout` — survives
`cleanup_expired_signals`, because the code compares the `seconds` field
of the timedelta (age modulo 86400, here 5) instead of the total age. -/
theorem cleanup_expired_wraps_at_one_day :
    sample_expired_signal.confirmation_timeout <
      86405 - sample_expired_signal.created_at ∧
    dlookup (cleanup_expired_signals sample_sp_state 86405).active_signals "SIG_A" =
      some sample_expired_signal ∧
    dlookup (cleanup_expired_signals sample_sp_state 86405).processed_signals "SIG_A" =
      none := by
  refine ⟨by norm_num [sample_expired_signal], ?_, ?_⟩ <;>
    simp [cleanup_expired_signals, sample_sp_state, sample_expired_signal, SPState.init,
      timedelta_seconds, dlookup]

/-! ### Signal-processor lemmas shared by C2 and C4 -/

@[simp] theorem created_signal_is_confirmed (s : SPState) (now : ℤ)
    (new_id symbol stock_name : String) (current_price chg : ℚ) (vol : ℤ) :
    (created_signal s now new_id symbol stock_name current_price chg vol).is_confirmed =
      false := rfl

@[simp] theorem created_signal_signal_id (s : SPState) (now : ℤ)
    (new_id symbol stock_name : String) (current_price chg : ℚ) (vol : ℤ) :
    (created_signal s now new_id symbol stock_name current_price chg vol).signal_id =
      new_id := rfl

@[simp] theorem created_signal_auto_confirm (s : SPState) (now : ℤ)
    (new_id symbol stock_name : String) (current_price chg : ℚ) (vol : ℤ) :
    (created_signal s now new_id symbol stock_name current_price chg vol).auto_confirm =
      s.auto_execution_enabled := rfl

theorem execute_buy_order_spec (s : SPState) (sig : BuySignal) :
    (0 < add_buy_order_quantity sig.investment_amount sig.current_price →
      execute_buy_order s sig =
        { s with active_signals := dremove s.active_signals sig.signal_id,
                 processed_signals := dinsert s.processed_signals sig.signal_id
                   ({ sig with order_id := some ("BUY_" ++ sig.symbol),
                               is_processed := true }) }) ∧
    (¬ 0 < add_buy_order_quantity sig.investment_amount sig.current_price →
      execute_buy_order s sig =
        { s with active_signals := dinsert s.active_signals sig.signal_id
                   ({ sig with
                       trigger_reason := "ORDER_FAILED: Invalid order quantity" }) }) := by
  constructor <;> intro h <;> simp [execute_buy_order, h]

theorem confirm_signal_found_eq (s : SPState) (now : ℤ) (k : String) (amt : Option ℚ)
    (sig : BuySignal) (hl : dlookup s.active_signals k = some sig)
    (hc : sig.is_confirmed = false) :
    confirm_signal s now k amt =
      (true, execute_buy_order
        ({ s with active_signals :=
                      dinsert s.active_signals k
                        ({ sig with investment_amount := amount_override sig amt,
                                    is_confirmed := true, confirmed_at := some now }) })
        ({ sig with investment_amount := amount_override sig amt,
                    is_confirmed := true, confirmed_at := some now })) := by
  unfold confirm_signal
  rw [hl]
  dsimp only
  rw [if_neg (by rw [hc]; exact Bool.false_ne_true)]
  cases amt with
  | none => rfl
  | some a =>
      by_cases ha : a = 0
      · simp [amount_override, ha]
      · simp [amount_override, ha]

/-! ### C4: confirm_signal (corrected) -/

/-- A confirmed-able signal whose investment amount (100) is below its
price (200), so `add_buy_order` computes quantity 0 and raises. -/
def sample_small_signal : BuySignal :=
  { signal_id := "SIG_B", symbol := "BBB", stock_name := "BetaCo",
    trigger_price := 200, current_price := 200, change_percent := 3,
    volume := 200000, trigger_reason := "momentum buy", created_at := 0,
    investment_amount := 100 }

/-- Processor state holding only that signal. -/
def sample_sp_state_small : SPState :=
  { SPState.init with active_signals := [("SIG_B", sample_small_signal)] }

/-- C4 counterexample: when the buy-order placement fails (here: the
computed quantity is 0, so `add_buy_order` raises), `confirm_signal`
still returns True but the signal stays in the active collection and
never reaches the processed collection — refuting "moves to processed
regardless of whether the order placement succeeds or fails". -/
theorem confirm_signal_not_always_processed :
    (confirm_signal sample_sp_state_small 0 "SIG_B" none).1 = true ∧
    (dlookup (confirm_signal sample_sp_state_small 0 "SIG_B" none).2.active_signals
      "SIG_B").isSome = true ∧
    dlookup (confirm_signal sample_sp_state_small 0 "SIG_B" none).2.processed_signals
      "SIG_B" = none := by
  refine ⟨?_, ?_, ?_⟩ <;>
    norm_num [confirm_signal, execute_buy_order, sample_sp_state_small,
      sample_small_signal, SPState.init, dlookup, dinsert, dremove, amount_override,
      add_buy_order_quantity, pyInt]

/-- C4 (amended): `confirm_signal` returns False and changes nothing when
the id is unknown or the signal is already confirmed; otherwise it
returns True, marks the signal confirmed, applies a non-zero amount
override, and places a buy order — after which the signal moves from
active to processed only when the placement succeeds (positive computed
quantity); when placement raises, the signal stays in the active
collection with an ORDER_FAILED reason. -/
theorem confirm_signal_amended (s : SPState) (now : ℤ) (signal_id : String)
    (amount : Option ℚ) :
    (dlookup s.active_signals signal_id = none →
      confirm_signal s now signal_id amount = (false, s)) ∧
    (∀ sig, dlookup s.active_signals signal_id = some sig → sig.is_confirmed = true →
      confirm_signal s now signal_id amount = (false, s)) ∧
    (∀ sig, dlookup s.active_signals signal_id = some sig → sig.is_confirmed = false →
      sig.signal_id = signal_id →
      (confirm_signal s now signal_id amount).1 = true ∧
      (0 < add_buy_order_quantity (amount_override sig amount) sig.current_price →
        dlookup (confirm_signal s now signal_id amount).2.active_signals signal_id =
          none ∧
        dlookup (confirm_signal s now signal_id amount).2.processed_signals signal_id =
          some { sig with investment_amount := amount_override sig amount,
                          is_confirmed := true, confirmed_at := some now,
                          order_id := some ("BUY_" ++ sig.symbol),
                          is_processed := true }) ∧
      (¬ 0 < add_buy_order_quantity (amount_override sig amount) sig.current_price →
        dlookup (confirm_signal s now signal_id amount).2.active_signals signal_id =
          some { sig with investment_amount := amount_override sig amount,
                          is_confirmed := true, confirmed_at := some now,
                          trigger_reason := "ORDER_FAILED: Invalid order quantity" } ∧
        (confirm_signal s now signal_id amount).2.processed_signals =
          s.processed_signals)) := by
  refine ⟨fun h => by simp [confirm_signal, h], fun sig h hc => by simp [confirm_signal, h, hc],
    fun sig hl hc hid => ?_⟩
  have heq := confirm_signal_found_eq s now signal_id amount sig hl hc
  have hx := execute_buy_order_spec
    ({ s with active_signals :=
                  dinsert s.active_signals signal_id
                    ({ sig with investment_amount := amount_override sig amount,
                                is_confirmed := true, confirmed_at := some now }) })
    ({ sig with investment_amount := amount_override sig amount,
                is_confirmed := true, confirmed_at := some now })
  refine ⟨by rw [heq], fun hq => ?_, fun hq => ?_⟩
  · have he := hx.1 hq
    rw [heq]
    dsimp only
    rw [he]
    dsimp only
    constructor
    · rw [hid]
      exact dlookup_dremove_self _ _
    · rw [hid]
      exact dlookup_dinsert_self _ _ _
  · have he := hx.2 hq
    rw [heq]
    dsimp only
    rw [he]
    dsimp only
    constructor
    · rw [hid]
      exact dlookup_dinsert_self _ _ _
    · rfl

/-- A confirmed-able signal with the default 1,000,000 investment amount
and price 100, so placement succeeds. -/
def sample_big_signal : BuySignal :=
  { signal_id := "SIG_C", symbol := "CCC", stock_name := "GammaCo",
    trigger_price := 100, current_price := 100, change_percent := 3,
    volume := 200000, trigger_reason := "momentum buy", created_at := 0 }

/-- Processor state holding only that signal. -/
def sample_sp_state_big : SPState :=
  { SPState.init with active_signals := [("SIG_C", sample_big_signal)] }

theorem confirm_signal_amended_witness :
    (confirm_signal sample_sp_state_big 0 "SIG_C" none).1 = true ∧
    dlookup (confirm_signal sample_sp_state_big 0 "SIG_C" none).2.active_signals
      "SIG_C" = none := by
  have h := (confirm_signal_amended sample_sp_state_big 0 "SIG_C" none).2.2
    sample_big_signal rfl rfl rfl
  have hq : 0 < add_buy_order_quantity
      (amount_override sample_big_signal none) sample_big_signal.current_price := by
    norm_num [add_buy_order_quantity, amount_override, pyInt, sample_big_signal]
  exact ⟨h.1, (h.2.1 hq).1⟩

/-! ### C2: signal creation conditions -/

theorem should_generate_signal_iff (s : SPState) (symbol : String) (chg : ℚ)
    (vol : ℤ) (thr : ℚ) :
    should_generate_signal s symbol chg vol thr = true ↔
      (thr ≤ chg ∧ (∀ p ∈ s.active_signals, (p : String × BuySignal).2.symbol ≠ symbol) ∧
       s.active_signals.length < s.max_pending_signals ∧ 100000 ≤ vol) := by
  unfold should_generate_signal
  split_ifs with h1 h2 h3 h4
  · simp only [Bool.false_eq_true, false_iff]
    rintro ⟨hc, -, -, -⟩
    exact absurd hc (not_le.mpr h1)
  · simp only [Bool.false_eq_true, false_iff]
    rintro ⟨-, hdup, -, -⟩
    simp only [List.any_eq_true, decide_eq_true_eq] at h2
    obtain ⟨p, hp, hsym⟩ := h2
    exact hdup p hp hsym
  · simp only [Bool.false_eq_true, false_iff]
    rintro ⟨-, -, hlen, -⟩
    exact absurd hlen (not_lt.mpr h3)
  · simp only [Bool.false_eq_true, false_iff]
    rintro ⟨-, -, -, hvol⟩
    exact absurd hvol (not_le.mpr h4)
  · refine iff_of_true rfl ⟨not_lt.mp h1, ?_, not_le.mp h3, not_lt.mp h4⟩
    intro p hp
    simp only [List.any_eq_true, decide_eq_true_eq] at h2
    push_neg at h2
    exact h2 p hp

theorem process_price_update_pos (s : SPState) (now : ℤ)
    (new_id symbol stock_name : String) (current_price chg : ℚ) (vol : ℤ) (thr : ℚ)
    (htrue : should_generate_signal s symbol chg vol thr = true) :
    ((process_price_update s now new_id symbol stock_name current_price chg vol
        thr).1).isSome = true ∧
    (s.auto_execution_enabled = false →
      ∃ sig, (process_price_update s now new_id symbol stock_name current_price chg vol
          thr).1 = some sig ∧
        dlookup (process_price_update s now new_id symbol stock_name current_price chg
          vol thr).2.active_signals new_id = some sig) := by
  unfold process_price_update
  rw [if_pos htrue]
  dsimp only
  by_cases hauto : s.auto_execution_enabled = true
  case neg =>
      rw [created_signal_auto_confirm, if_neg hauto]
      refine ⟨?_, fun _ =>
        ⟨created_signal s now new_id symbol stock_name current_price chg vol, ?_, ?_⟩⟩
      · rw [dlookup_dinsert_self]
        rfl
      · rw [dlookup_dinsert_self]
        rfl
      · exact dlookup_dinsert_self _ _ _
  case pos =>
      rw [created_signal_auto_confirm, if_pos hauto]
      have hl1 : dlookup
          (dinsert s.active_signals new_id
            (created_signal s now new_id symbol stock_name current_price chg vol)) new_id =
          some (created_signal s now new_id symbol stock_name current_price chg vol) :=
        dlookup_dinsert_self _ _ _
      have heq := confirm_signal_found_eq
        ({ s with active_signals :=
                      dinsert s.active_signals new_id
                        (created_signal s now new_id symbol stock_name current_price
                          chg vol) })
        now new_id none _ hl1 (created_signal_is_confirmed _ _ _ _ _ _ _ _)
      rw [heq]
      dsimp only
      set csig : BuySignal :=
        { created_signal s now new_id symbol stock_name current_price chg vol with
          investment_amount := amount_override
            (created_signal s now new_id symbol stock_name current_price chg vol) none,
          is_confirmed := true, confirmed_at := some now } with hcsig
      have hx := execute_buy_order_spec
        ({ s with active_signals :=
                      dinsert
                        (dinsert s.active_signals new_id
                          (created_signal s now new_id symbol stock_name current_price
                            chg vol))
                        new_id csig })
        csig
      have hcid : csig.signal_id = new_id := rfl
      by_cases hqty : 0 < add_buy_order_quantity csig.investment_amount csig.current_price
      · rw [hx.1 hqty]
        dsimp only
        simp only [created_signal_signal_id, dlookup_dremove_self, dlookup_dinsert_self]
        exact ⟨rfl, fun hfalse => Bool.noConfusion ((hauto.symm).trans hfalse)⟩
      · rw [hx.2 hqty]
        dsimp only
        simp only [created_signal_signal_id, dlookup_dinsert_self]
        exact ⟨rfl, fun hfalse => Bool.noConfusion ((hauto.symm).trans hfalse)⟩

/-- C2: `process_price_update` creates (and returns) a signal iff the
change meets the threshold, no active signal exists for the symbol, the
active count is below `max_pending_signals` (10 in the initial state),
and volume is at least 100,000; when any condition fails it returns None
with the state untouched; when it creates and auto-execution is off, the
new signal sits in the active collection. -/
theorem process_price_update_creates_iff (s : SPState) (now : ℤ) (new_id : String)
    (symbol stock_name : String) (current_price chg : ℚ) (vol : ℤ) (thr : ℚ) :
    (((process_price_update s now new_id symbol stock_name current_price chg vol
        thr).1).isSome = true ↔
      (thr ≤ chg ∧ (∀ p ∈ s.active_signals, (p : String × BuySignal).2.symbol ≠ symbol) ∧
       s.active_signals.length < s.max_pending_signals ∧ 100000 ≤ vol)) ∧
    (¬ (thr ≤ chg ∧ (∀ p ∈ s.active_signals, (p : String × BuySignal).2.symbol ≠ symbol) ∧
        s.active_signals.length < s.max_pending_signals ∧ 100000 ≤ vol) →
      process_price_update s now new_id symbol stock_name current_price chg vol thr =
        (none, s)) ∧
    (s.auto_execution_enabled = false →
      (thr ≤ chg ∧ (∀ p ∈ s.active_signals, (p : String × BuySignal).2.symbol ≠ symbol) ∧
        s.active_signals.length < s.max_pending_signals ∧ 100000 ≤ vol) →
      ∃ sig, (process_price_update s now new_id symbol stock_name current_price chg vol
          thr).1 = some sig ∧
        dlookup (process_price_update s now new_id symbol stock_name current_price chg
          vol thr).2.active_signals new_id = some sig) ∧
    SPState.init.max_pending_signals = 10 := by
  by_cases hcond : (thr ≤ chg ∧
      (∀ p ∈ s.active_signals, (p : String × BuySignal).2.symbol ≠ symbol) ∧
      s.active_signals.length < s.max_pending_signals ∧ 100000 ≤ vol)
  · have htrue := (should_generate_signal_iff s symbol chg vol thr).mpr hcond
    have hpos := process_price_update_pos s now new_id symbol stock_name current_price
      chg vol thr htrue
    exact ⟨iff_of_true hpos.1 hcond, fun hn => absurd hcond hn,
      fun hauto _ => hpos.2 hauto, rfl⟩
  · have hfalse : should_generate_signal s symbol chg vol thr = false := by
      cases h : should_generate_signal s symbol chg vol thr
      · rfl
      · exact absurd ((should_generate_signal_iff s symbol chg vol thr).mp h) hcond
    have hnone : process_price_update s now new_id symbol stock_name current_price chg
        vol thr = (none, s) := by
      unfold process_price_update
      rw [hfalse]
      rfl
    refine ⟨?_, fun _ => hnone, fun _ hc => absurd hc hcond, rfl⟩
    refine iff_of_false ?_ hcond
    rw [hnone]
    simp

theorem process_price_update_creates_iff_witness :
    ((process_price_update SPState.init 0 "SIG_W" "WWW" "WidgetCo" 100 3 200000
      2).1).isSome = true :=
  (process_price_update_creates_iff SPState.init 0 "SIG_W" "WWW" "WidgetCo" 100 3
      200000 2).1.mpr
    ⟨by norm_num, by simp [SPState.init], by simp [SPState.init], by norm_num⟩

end VolStrat
